import Mathlib

/-!
Shallow embedding of `library/l3fw_cluster.py` (ansible-stonesoft), the
module that reconciles a declarative firewall-cluster description against
remote state.  Pure fragments of the Python code are translated into
executable Lean functions; the mutating remote calls are modelled as action
traces emitted by the corresponding reconciler functions.
-/

namespace L3FWCluster

/-- A Python scalar as it appears in the YAML input document: either an
integer or a string.  `YamlInterface.__init__` coerces both with `str(...)`. -/
inductive PyVal where
  | pint : Nat → PyVal
  | pstr : String → PyVal
deriving DecidableEq, Repr

/-- Python `str(value)` on the scalars of the input document. -/
def pyStr : PyVal → String
  | .pint n => toString n
  | .pstr s => s

/-- Python truthiness of an attribute that is either `None` or a string. -/
def truthy : Option String → Bool
  | none => false
  | some s => !s.isEmpty

/-- One node dict of an interface definition.  `None` marks an absent key,
matching the `k in node` membership tests of the validation loop. -/
structure RawNode where
  address : Option String
  network_value : Option String
  nodeid : Option Nat
deriving DecidableEq, Repr

/-- One raw interface dict from the YAML document.  A `none` field means the
key is absent, so `YamlInterface.__init__` leaves the attribute at its
`None` default. -/
structure RawInterface where
  interface_id : Option PyVal
  vlan_id : Option PyVal
  cluster_virtual : Option PyVal
  network_value : Option PyVal
  macaddress : Option PyVal
  zone_ref : Option PyVal
  nodes : List RawNode
deriving DecidableEq, Repr

/-- State of the `vlan_id` instance attribute of a `YamlInterface`:
`YamlInterface.as_dict` calls `delattr(self, 'vlan_id')`, after which any
read raises `AttributeError`. -/
inductive Attr where
  | present : Option String → Attr
  | deleted : Attr
deriving DecidableEq, Repr

/-- The `YamlInterface` object after `__init__` (and possible later
attribute deletion).  Scalar attributes are `None` or the `str(...)` of the
raw value; `nodes` is stored unconverted. -/
structure YamlInterface where
  cluster_virtual : Option String
  interface_id : Option String
  macaddress : Option String
  network_value : Option String
  vlan_id : Attr
  zone_ref : Option String
  nodes : List RawNode
  cvi_mode : Option String
deriving DecidableEq, Repr

/-- `YamlInterface.__init__`: every scalar key of the dict is stored as
`str(value)`; `nodes` is stored as-is; `cvi_mode` is `'packetdispatch'`
exactly when `cluster_virtual` is truthy. -/
def mkYamlInterface (r : RawInterface) : YamlInterface :=
  let cv := r.cluster_virtual.map pyStr
  { cluster_virtual := cv
    interface_id := r.interface_id.map pyStr
    macaddress := r.macaddress.map pyStr
    network_value := r.network_value.map pyStr
    vlan_id := .present (r.vlan_id.map pyStr)
    zone_ref := r.zone_ref.map pyStr
    nodes := r.nodes
    cvi_mode := if truthy cv then some "packetdispatch" else none }

/-- `YamlInterface.is_vlan`: `bool(self.vlan_id)`.  Raises `AttributeError`
when the attribute has been deleted by a prior `as_dict` call. -/
def YamlInterface.is_vlan (y : YamlInterface) : Except String Bool :=
  match y.vlan_id with
  | .deleted => .error "AttributeError: vlan_id"
  | .present v => .ok (truthy v)

/-- `YamlInterface.as_dict`: when the spec is not a VLAN the `vlan_id`
attribute is deleted from the object, then `vars(self)` (the object's own
attribute dict) is returned.  The returned value doubles as the mutated
object state, exactly as `vars` aliases `self.__dict__` in Python. -/
def YamlInterface.as_dict (y : YamlInterface) : Except String YamlInterface :=
  match y.is_vlan with
  | .error e => .error e
  | .ok true => .ok y
  | .ok false => .ok { y with vlan_id := Attr.deleted }

/-- `Interfaces.vlan_ids`: the truthy `vlan_id` values of freshly
constructed `YamlInterface`s. -/
def Interfaces.vlan_ids (raw : List RawInterface) : List String :=
  (raw.map mkYamlInterface).filterMap (fun itf =>
    match itf.vlan_id with
    | Attr.present (some s) => if s.isEmpty then none else some s
    | _ => none)

/-- `Interfaces.get_vlan`: first interface whose `vlan_id` attribute equals
the queried id (the query arrives as a string from the remote VLAN). -/
def Interfaces.get_vlan (raw : List RawInterface) (q : String) : Option YamlInterface :=
  (raw.map mkYamlInterface).find? (fun itf => itf.vlan_id == Attr.present (some q))

/-- `Interfaces.get`: first interface whose `interface_id` equals
`str(interface_id)` of the query. -/
def Interfaces.get (raw : List RawInterface) (q : PyVal) : Option YamlInterface :=
  (raw.map mkYamlInterface).find? (fun itf => itf.interface_id == some (pyStr q))

/-- The node-field presence test of `exec_module`:
`all(k in node for k in ('address', 'network_value', 'nodeid'))`. -/
def node_req_ok (n : RawNode) : Bool :=
  n.address.isSome && n.network_value.isSome && n.nodeid.isSome

/-- The inner validation loop over `interface.nodes`: the first node with a
missing required key aborts with `self.fail`. -/
def check_nodes : List RawNode → Except String Unit
  | [] => .ok ()
  | n :: rest =>
    if node_req_ok n then check_nodes rest
    else .error "Node missing required field. Required fields are: address, network_value, nodeid"

/-- The validation loop of `exec_module` over the desired interfaces: each
interface must have a truthy `interface_id` and every node all three
required keys; the first violation aborts. -/
def check_interfaces : List RawInterface → Except String Unit
  | [] => .ok ()
  | r :: rest =>
    if !truthy (mkYamlInterface r).interface_id then
      .error "interface_id is required for all interface definitions"
    else
      match check_nodes (mkYamlInterface r).nodes with
      | .error e => .error e
      | .ok _ => check_interfaces rest

/-- The interface-validation phase of `exec_module` for `state=present`
(source lines 697-721).  The whole block sits inside `if not engine:` —
when the engine already exists remotely, no interface validation runs.
After the field checks, the management interface must resolve via
`itf.get(self.primary_mgt)`. -/
def validate_present (engine_exists : Bool) (interfaces : List RawInterface)
    (primary_mgt : String) : Except String Unit :=
  if engine_exists then .ok ()
  else if interfaces.isEmpty then
    .error "You must provide at least one interface configuration to create a cluster."
  else
    match check_interfaces interfaces with
    | .error e => .error e
    | .ok _ =>
      match Interfaces.get interfaces (PyVal.pstr primary_mgt) with
      | none => .error ("Management interface is not defined. Management was specified on interface: " ++ primary_mgt)
      | some _ => .ok ()

/-! ## Route cleanup (`StonesoftCluster.remove_routes`) -/

/-- One network hanging off a routing entry; `invalid` is the remote
service's staleness flag. -/
structure VlanNetwork where
  dest : String
  invalid : Bool
deriving DecidableEq, Repr

/-- One routing-table entry (`route.name`, its networks). -/
structure RouteEntry where
  name : String
  networks : List VlanNetwork
deriving DecidableEq, Repr

/-- The per-entry action of `remove_routes` for one route-impacting
interface id: on a name match, entries with more than one network keep only
their valid networks, entries with at most one network are deleted whole
(`route.delete()`); non-matching entries are untouched. -/
def process_route (int_id : String) (r : RouteEntry) : Option RouteEntry :=
  if r.name == "VLAN " ++ int_id then
    if 1 < r.networks.length then
      some { r with networks := r.networks.filter (fun n => !n.invalid) }
    else none
  else some r

/-- `StonesoftCluster.remove_routes`: for each route-impacting interface id
scan the routing table and apply the per-entry action. -/
def remove_routes (routing : List RouteEntry) (routes_to_remove : List String) : List RouteEntry :=
  routes_to_remove.foldl (fun acc int_id => acc.filterMap (process_route int_id)) routing

/-! ## VLAN deletion (`delete_vlan_interface`) -/

/-- A remote VLAN sub-interface as consumed by `delete_vlan_interface`:
its composite `interface_id` (e.g. `2.4`) and its address list. -/
structure RemoteVlan where
  interface_id : String
  addresses : List String
deriving DecidableEq, Repr

/-- The list comprehension rebuilding `self._parent.data['vlanInterfaces']`:
its condition reads the local `vlan_str`, which the source assigns only in
the addressless branch.  Evaluating the condition with the local unbound
raises, exactly as Python does on the first element. -/
def filter_vlans (l : List RemoteVlan) (vlan_str : Option String) :
    Except String (List RemoteVlan) :=
  match l with
  | [] => .ok []
  | v :: rest =>
    match vlan_str with
    | none => .error "UnboundLocalError: local variable vlan_str referenced before assignment"
    | some s =>
      match filter_vlans rest (some s) with
      | .error e => .error e
      | .ok r => .ok (if v.interface_id != s then v :: r else r)

/-- `delete_vlan_interface`: computes `(was_changed, delete_network)` —
`(True, True)` when the VLAN still has addresses, `(True, False)` otherwise
— then rewrites the parent's VLAN list.  `vlan_str` is assigned only in the
addressless branch, so the rewrite faults when addresses exist. -/
def delete_vlan_interface (vlan : RemoteVlan) (parent_vlan_interfaces : List RemoteVlan) :
    Except String ((Bool × Bool) × List RemoteVlan) :=
  let changes_and_str : (Bool × Bool) × Option String :=
    if !vlan.addresses.isEmpty then ((true, true), none)
    else ((true, false), some vlan.interface_id)
  match filter_vlans parent_vlan_interfaces changes_and_str.2 with
  | .error e => .error e
  | .ok l => .ok (changes_and_str.1, l)

/-! ## General settings (`StonesoftCluster.update_general`) -/

/-- Mutating calls that `update_general` can issue against the engine. -/
inductive GAction where
  | enable_default_nat | disable_default_nat
  | enable_file_reputation | disable_file_reputation
  | enable_antivirus | disable_antivirus
  | clear_dns
  | add_dns : List String → GAction
deriving DecidableEq, Repr

/-- Ansible parameter processing for `dict(default=False, type='bool')`:
a key absent from the input document receives the declared default
`False`; an explicitly null value stays `None`; a boolean passes through.
The outer `Option` is key presence, the inner is the value. -/
def bool_param_default_false : Option (Option Bool) → Option Bool
  | none => some false
  | some v => v

/-- Desired general settings as seen by `update_general` (the module's
attributes after parameter processing). -/
structure DesiredGeneral where
  default_nat : Option Bool
  file_reputation : Option Bool
  antivirus : Option Bool
  domain_server_address : List String
deriving DecidableEq, Repr

/-- The engine-side state `update_general` reads. -/
structure EngineGeneral where
  default_nat_status : Bool
  file_reputation_status : Bool
  antivirus_status : Bool
  dns : List String
deriving DecidableEq, Repr

/-- One boolean feature block of `update_general`:
`if desired is not None: if not status and desired: enable();
elif status and not desired: disable()`. -/
def toggle_feature (desired : Option Bool) (status : Bool) (en dis : GAction) : List GAction :=
  match desired with
  | none => []
  | some d =>
    if !status && d then [en]
    else if status && !d then [dis]
    else []

/-- `set(a) == set(b)` on string lists (empty symmetric difference). -/
def same_set (a b : List String) : Bool :=
  a.all (fun x => b.contains x) && b.all (fun x => a.contains x)

/-- The DNS block of `update_general`: guarded by the truthiness of the
desired list (`if self.domain_server_address:`); when the symmetric
difference with the current addresses is non-empty, wipe and re-add. -/
def dns_actions (desired current : List String) : List GAction :=
  if desired.isEmpty then []
  else if same_set current desired then []
  else [GAction.clear_dns, GAction.add_dns desired]

/-- `StonesoftCluster.update_general`: the three feature toggles followed
by the DNS block; `changed` is returned exactly when some call was made. -/
def update_general (d : DesiredGeneral) (e : EngineGeneral) : List GAction × Bool :=
  let acts :=
    toggle_feature d.default_nat e.default_nat_status GAction.enable_default_nat GAction.disable_default_nat
    ++ toggle_feature d.file_reputation e.file_reputation_status GAction.enable_file_reputation GAction.disable_file_reputation
    ++ toggle_feature d.antivirus e.antivirus_status GAction.enable_antivirus GAction.disable_antivirus
    ++ dns_actions d.domain_server_address e.dns
  (acts, !acts.isEmpty)

/-! ## BGP reconciliation (`StonesoftCluster.update_bgp` and the
`elif enable:` branch of `exec_module`) -/

/-- One announced-network entry at the resolved level: the network handle
(`href`) and the optional route-map handle, as produced by
`announced_network_format` and as stored in `announced_ne_setting`. -/
structure AnnouncedEntry where
  network : String
  route_map : Option String
deriving DecidableEq, Repr

/-- The remote BGP snapshot `update_bgp` reads from `engine.bgp`. -/
structure BgpCurrent where
  router_id : String
  profile_name : String
  antispoofing_ne_ref : List String
  announced_ne_setting : List AnnouncedEntry
deriving DecidableEq, Repr

/-- Lookup in the dict built by comprehension over the entries: Python dict
assignment makes the last occurrence of a key win. -/
def dict_lookup (l : List AnnouncedEntry) (k : String) : Option (Option String) :=
  match l.reverse.find? (fun e => e.network == k) with
  | none => none
  | some e => some e.route_map

/-- The key list of the comprehension-built dict. -/
def dict_keys (l : List AnnouncedEntry) : List String := l.map (fun e => e.network)

/-- Equality of the two comprehension-built dicts (`cmp(...) == 0`). -/
def dict_eq (a b : List AnnouncedEntry) : Bool :=
  (dict_keys a ++ dict_keys b).all (fun k => dict_lookup a k == dict_lookup b k)

/-- `StonesoftCluster.update_bgp`: needs-update decision — `router_id`
differs, or a specified `bgp_profile` differs from the current profile
name, or the antispoofing sets have a non-empty symmetric difference, or
the announced-network dicts differ. -/
def update_bgp (bgp : BgpCurrent) (router_id : String) (bgp_profile : Option String)
    (antispoofing_format : List String) (announced_network_format : List AnnouncedEntry) : Bool :=
  if bgp.router_id != router_id then true
  else if (match bgp_profile with
           | none => false
           | some p => p != bgp.profile_name) then true
  else if !same_set bgp.antispoofing_ne_ref antispoofing_format then true
  else if !dict_eq bgp.announced_ne_setting announced_network_format then true
  else false

/-- Mutating BGP calls of the `elif enable:` branch of `exec_module`. -/
inductive BgpAction where
  | disable
  | enable : String → List String → BgpAction
  | advertise : String → Option String → BgpAction
deriving DecidableEq, Repr

/-- The `elif enable:` branch of `exec_module` (source lines 851-871): when
`update_bgp` reports a difference, disable, re-enable with the new router
id and antispoofing set, and re-advertise every announced network; the
branch reports `changed=true`.  Otherwise no BGP call is made. -/
def bgp_reconcile (bgp : BgpCurrent) (router_id : String) (bgp_profile : Option String)
    (spoof : List String) (announced : List AnnouncedEntry) : List BgpAction × Bool :=
  if update_bgp bgp router_id bgp_profile spoof announced then
    (BgpAction.disable :: BgpAction.enable router_id spoof ::
       announced.map (fun e => BgpAction.advertise e.network e.route_map), true)
  else ([], false)

/-! ## BGP peering attachment (`StonesoftCluster.update_bgp_peering`) -/

/-- One peering already attached to the interface's routing node, as
yielded by `routing.bgp_peerings`: the bound network's ip and the peering
element's name. -/
structure AttachedPeering where
  net_ip : String
  peering_name : String
deriving DecidableEq, Repr

/-- The needs-update loop of `update_bgp_peering`: with no attached
peerings, attach; otherwise both branches of the loop set `needs_update`
exactly when some attached peering's name differs from the desired
peering's name (the loop never resets it to false). -/
def peering_needs_update (interface_peerings : List AttachedPeering)
    (network : Option String) (name : String) : Bool :=
  if interface_peerings.isEmpty then true
  else interface_peerings.any (fun e =>
    if truthy network && (some e.net_ip == network) then e.peering_name != name
    else name != e.peering_name)

/-- `StonesoftCluster.update_bgp_peering`: first component is whether
`routing.add_bgp_peering` is called, second is the returned `changed`. -/
def update_bgp_peering (interface_peerings : List AttachedPeering)
    (network : Option String) (name : String) : Bool × Bool :=
  let needs := peering_needs_update interface_peerings network name
  (needs, needs)

/-! ## Helper lemmas -/

theorem mkYamlInterface_nodes (r : RawInterface) : (mkYamlInterface r).nodes = r.nodes := rfl

theorem same_set_iff (a b : List String) :
    same_set a b = true ↔ ∀ x, x ∈ a ↔ x ∈ b := by
  unfold same_set
  rw [Bool.and_eq_true, List.all_eq_true, List.all_eq_true]
  constructor
  · intro h x
    constructor
    · intro hx
      have := h.1 x hx
      simpa [List.contains] using this
    · intro hx
      have := h.2 x hx
      simpa [List.contains] using this
  · intro h
    constructor
    · intro x hx
      simpa [List.contains] using (h x).mp hx
    · intro x hx
      simpa [List.contains] using (h x).mpr hx

theorem same_set_false_iff (a b : List String) :
    same_set a b = false ↔ ¬(∀ x, x ∈ a ↔ x ∈ b) := by
  rw [← same_set_iff a b]
  cases h : same_set a b <;> simp

theorem dict_lookup_none_of_not_mem (l : List AnnouncedEntry) (k : String)
    (h : k ∉ dict_keys l) : dict_lookup l k = none := by
  unfold dict_lookup
  cases hf : l.reverse.find? (fun e => e.network == k) with
  | none => rfl
  | some e =>
    exfalso
    have hm := List.mem_of_find?_eq_some hf
    have hp := List.find?_some hf
    rw [beq_iff_eq] at hp
    exact h (by
      unfold dict_keys
      exact List.mem_map.mpr ⟨e, List.mem_reverse.mp hm, hp⟩)

theorem dict_eq_iff (a b : List AnnouncedEntry) :
    dict_eq a b = true ↔ ∀ k, dict_lookup a k = dict_lookup b k := by
  constructor
  · intro h k
    rw [dict_eq, List.all_eq_true] at h
    by_cases hk : k ∈ dict_keys a ++ dict_keys b
    · have := h k hk
      exact beq_iff_eq.mp this
    · rw [List.mem_append] at hk
      push_neg at hk
      rw [dict_lookup_none_of_not_mem a k hk.1, dict_lookup_none_of_not_mem b k hk.2]
  · intro h
    rw [dict_eq, List.all_eq_true]
    intro k _
    exact beq_iff_eq.mpr (h k)

theorem dict_eq_false_iff (a b : List AnnouncedEntry) :
    dict_eq a b = false ↔ ¬(∀ k, dict_lookup a k = dict_lookup b k) := by
  rw [← dict_eq_iff a b]
  cases h : dict_eq a b <;> simp

theorem check_nodes_ok_iff (l : List RawNode) :
    check_nodes l = Except.ok () ↔ ∀ n ∈ l, node_req_ok n = true := by
  induction l with
  | nil => simp [check_nodes]
  | cons n rest ih =>
    cases h : node_req_ok n with
    | true => simp [check_nodes, h, ih]
    | false => simp [check_nodes, h]

theorem check_interfaces_ok_iff (l : List RawInterface) :
    check_interfaces l = Except.ok () ↔
      ∀ r ∈ l, truthy (mkYamlInterface r).interface_id = true ∧
        ∀ n ∈ r.nodes, node_req_ok n = true := by
  induction l with
  | nil => simp [check_interfaces]
  | cons r rest ih =>
    cases ht : truthy (mkYamlInterface r).interface_id with
    | false =>
      simp only [check_interfaces, ht, Bool.not_false, if_true]
      constructor
      · intro h; cases h
      · intro h
        have := (h r (List.mem_cons_self r rest)).1
        rw [ht] at this
        cases this
    | true =>
      cases hn : check_nodes (mkYamlInterface r).nodes with
      | error e =>
        simp only [check_interfaces, ht, Bool.not_true, Bool.false_eq_true, if_false, hn]
        constructor
        · intro h; cases h
        · intro h
          have hko := (check_nodes_ok_iff (mkYamlInterface r).nodes).mpr
            (by rw [mkYamlInterface_nodes]; exact (h r (List.mem_cons_self r rest)).2)
          rw [hn] at hko
          cases hko
      | ok u =>
        cases u
        have hok := (check_nodes_ok_iff (mkYamlInterface r).nodes).mp hn
        rw [mkYamlInterface_nodes] at hok
        simp only [check_interfaces, ht, Bool.not_true, Bool.false_eq_true, if_false, hn]
        rw [ih]
        constructor
        · intro h r' hr'
          rcases List.mem_cons.mp hr' with rfl | hr'
          · exact ⟨ht, hok⟩
          · exact h r' hr'
        · intro h r' hr'
          exact h r' (List.mem_cons_of_mem r hr')

theorem update_bgp_eq_or (bgp : BgpCurrent) (rid : String) (prof : Option String)
    (spoof : List String) (ann : List AnnouncedEntry) :
    update_bgp bgp rid prof spoof ann =
      ((bgp.router_id != rid) ||
       (match prof with | none => false | some p => p != bgp.profile_name) ||
       (!same_set bgp.antispoofing_ne_ref spoof) ||
       (!dict_eq bgp.announced_ne_setting ann)) := by
  unfold update_bgp
  cases h1 : bgp.router_id != rid <;>
    cases h2 : (match prof with | none => false | some p => p != bgp.profile_name) <;>
      cases h3 : same_set bgp.antispoofing_ne_ref spoof <;>
        cases h4 : dict_eq bgp.announced_ne_setting ann <;>
          simp [h1, h2, h3, h4]

theorem update_bgp_iff (bgp : BgpCurrent) (rid : String) (prof : Option String)
    (spoof : List String) (ann : List AnnouncedEntry) :
    update_bgp bgp rid prof spoof ann = true ↔
      (bgp.router_id ≠ rid
       ∨ (∃ p, prof = some p ∧ p ≠ bgp.profile_name)
       ∨ ¬(∀ x, x ∈ bgp.antispoofing_ne_ref ↔ x ∈ spoof)
       ∨ ¬(∀ k, dict_lookup bgp.announced_ne_setting k = dict_lookup ann k)) := by
  rw [update_bgp_eq_or]
  simp only [Bool.or_eq_true, bne_iff_ne, Bool.not_eq_true']
  rw [same_set_false_iff, dict_eq_false_iff]
  constructor
  · rintro (((h | h) | h) | h)
    · exact Or.inl h
    · rcases prof with _ | p
      · cases h
      · rw [bne_iff_ne] at h
        exact Or.inr (Or.inl ⟨p, rfl, h⟩)
    · exact Or.inr (Or.inr (Or.inl h))
    · exact Or.inr (Or.inr (Or.inr h))
  · rintro (h | ⟨p, hp, h⟩ | h | h)
    · exact Or.inl (Or.inl (Or.inl h))
    · refine Or.inl (Or.inl (Or.inr ?_))
      rw [hp, bne_iff_ne]
      exact h
    · exact Or.inl (Or.inr h)
    · exact Or.inr h

theorem peering_needs_update_false_iff (ps : List AttachedPeering)
    (network : Option String) (name : String) :
    peering_needs_update ps network name = false ↔
      ps ≠ [] ∧ ∀ e ∈ ps, e.peering_name = name := by
  unfold peering_needs_update
  cases he : ps.isEmpty with
  | true =>
    rw [List.isEmpty_iff] at he
    simp [he]
  | false =>
    have hne : ps ≠ [] := by
      intro h
      rw [h] at he
      cases he
    simp only [Bool.false_eq_true, if_false, hne, ne_eq, not_false_eq_true, true_and]
    rw [List.any_eq_false]
    constructor
    · intro h e hme
      have := h e hme
      by_cases hc : (truthy network && (some e.net_ip == network)) = true
      · rw [if_pos hc] at this
        simpa using this
      · rw [if_neg hc] at this
        have : ¬ name ≠ e.peering_name := by simpa using this
        exact (not_ne_iff.mp this).symm
    · intro h e hme
      by_cases hc : (truthy network && (some e.net_ip == network)) = true
      · rw [if_pos hc]
        simp [h e hme]
      · rw [if_neg hc]
        simp [h e hme]

/-! ## Concrete inputs used by counterexamples and witnesses -/

/-- Two node dicts with all three required keys and the same `nodeid`. -/
def dupNode1 : RawNode := { address := some "1.1.1.1", network_value := some "1.1.1.0/24", nodeid := some 1 }

def dupNode2 : RawNode := { address := some "1.1.1.2", network_value := some "1.1.1.0/24", nodeid := some 1 }

/-- An interface group (one interface) whose two nodes share `nodeid=1`. -/
def dupInterface : RawInterface :=
  { interface_id := some (PyVal.pstr "1"), vlan_id := none, cluster_virtual := none,
    network_value := none, macaddress := none, zone_ref := none,
    nodes := [dupNode1, dupNode2] }

/-- A node dict missing the required `nodeid` key. -/
def badNode : RawNode := { address := some "2.2.2.1", network_value := some "2.2.2.0/24", nodeid := none }

/-- An interface whose only node misses `nodeid`. -/
def badInterface : RawInterface :=
  { interface_id := some (PyVal.pstr "1"), vlan_id := none, cluster_virtual := none,
    network_value := none, macaddress := none, zone_ref := none,
    nodes := [badNode] }

/-! ## Claim C1 -/

/-- Claim C1 counterexample: a desired document whose single interface group
carries two node entries with the same `nodeid` passes the pre-create
validation of `exec_module` — no ValidationError is raised, so the claim
that such documents are rejected is false. -/
theorem claim_C1_counterexample :
    dupNode1.nodeid = dupNode2.nodeid
    ∧ validate_present false [dupInterface] "1" = Except.ok () := by
  constructor
  · rfl
  · rfl

/-- Claim C1 (amended): duplicate `nodeid` values are not rejected.  The
interface validation loop of `exec_module` succeeds exactly when every
interface has a truthy `interface_id` and every node carries the three
required keys `address`, `network_value`, `nodeid`; it is insensitive to
the nodeid values themselves, so duplicates pass. -/
theorem claim_C1_amended (l : List RawInterface) :
    check_interfaces l = Except.ok () ↔
      ∀ r ∈ l, truthy (mkYamlInterface r).interface_id = true ∧
        ∀ n ∈ r.nodes, node_req_ok n = true :=
  check_interfaces_ok_iff l

/-- Witness for the amended C1 at a concrete duplicate-nodeid document. -/
theorem claim_C1_witness :
    check_interfaces [dupInterface] = Except.ok () :=
  (claim_C1_amended [dupInterface]).mpr (by decide)

/-! ## Claim C2 -/

/-- Claim C2: for a route-impacting `interface_id` and a routing entry named
`VLAN interface_id`, cleanup keeps the entry but drops exactly the networks
flagged invalid when the entry carries more than one network, and deletes
the whole entry when it carries exactly one; `remove_routes` applies this
per-entry action across the routing table. -/
theorem claim_C2 (int_id : String) (r : RouteEntry) (routing : List RouteEntry) :
    (r.name = "VLAN " ++ int_id →
      (1 < r.networks.length →
        process_route int_id r = some { r with networks := r.networks.filter (fun n => !n.invalid) })
      ∧ (r.networks.length = 1 → process_route int_id r = none))
    ∧ remove_routes routing [int_id] = routing.filterMap (process_route int_id) := by
  refine ⟨fun hname => ⟨fun hlen => ?_, fun hlen => ?_⟩, rfl⟩
  · simp [process_route, hname, hlen]
  · simp [process_route, hname, hlen]

/-- Witness for C2: a two-network entry with exactly one invalid network
keeps the valid network, and entry identity, after cleanup. -/
theorem claim_C2_witness :
    process_route "4" { name := "VLAN 4", networks := [{ dest := "10.0.0.0/24", invalid := true }, { dest := "10.0.1.0/24", invalid := false }] } =
      some { name := "VLAN 4", networks := [{ dest := "10.0.1.0/24", invalid := false }] } :=
  ((claim_C2 "4" { name := "VLAN 4", networks := [{ dest := "10.0.0.0/24", invalid := true }, { dest := "10.0.1.0/24", invalid := false }] } []).1 rfl).1 (by decide)

/-! ## Claim C5 -/

/-- Claim C5 (code bug): deleting a remote VLAN that still holds addresses
faults.  `delete_vlan_interface` computes `(True, True)` — deleted and
route-impacting — but assigns the local `vlan_str` only in the addressless
branch, so rewriting the parent's VLAN list dereferences an unbound local
and the run aborts instead of deleting the VLAN.  The addressless path
works and reports `(True, False)` — deleted, not route-impacting. -/
theorem claim_C5_bug :
    delete_vlan_interface { interface_id := "2.4", addresses := ["4.4.4.1"] }
        [{ interface_id := "2.4", addresses := ["4.4.4.1"] }] =
      Except.error "UnboundLocalError: local variable vlan_str referenced before assignment"
    ∧ delete_vlan_interface { interface_id := "2.5", addresses := [] }
        [{ interface_id := "2.5", addresses := [] }] =
      Except.ok ((true, false), []) := by
  constructor
  · rfl
  · rfl

/-! ## Claim C6 -/

/-- Claim C6 counterexample: a desired document whose node misses the
required `nodeid` is NOT rejected when the engine already exists remotely —
the whole interface validation block sits inside `if not engine:` — so the
claim's "regardless of whether the engine already exists" is false. -/
theorem claim_C6_counterexample :
    node_req_ok badNode = false
    ∧ validate_present true [badInterface] "1" = Except.ok () := by
  constructor
  · rfl
  · rfl

/-- Claim C6 (amended): when the engine does not exist remotely, a desired
document in which some node lacks `address`, `network_value` or `nodeid`,
or some interface lacks a truthy `interface_id`, fails the validation phase
with a ValidationError (no mutating call is modelled in this phase); when
the engine already exists remotely, the interface validation is skipped
entirely. -/
theorem claim_C6_amended (interfaces : List RawInterface) (pm : String) :
    validate_present true interfaces pm = Except.ok ()
    ∧ (∀ r ∈ interfaces, (∃ n ∈ r.nodes, node_req_ok n = false) →
        ∃ msg, validate_present false interfaces pm = Except.error msg)
    ∧ (∀ r ∈ interfaces, truthy (mkYamlInterface r).interface_id = false →
        ∃ msg, validate_present false interfaces pm = Except.error msg) := by
  have hval : interfaces.isEmpty = false →
      check_interfaces interfaces ≠ Except.ok () →
      ∃ msg, validate_present false interfaces pm = Except.error msg := by
    intro hne hci
    cases hc : check_interfaces interfaces with
    | ok u => cases u; exact absurd hc hci
    | error e =>
      refine ⟨e, ?_⟩
      simp [validate_present, hne, hc]
  have hnonempty : ∀ r, r ∈ interfaces → interfaces.isEmpty = false := by
    intro r hr
    cases interfaces with
    | nil => cases hr
    | cons a l => rfl
  refine ⟨rfl, ?_, ?_⟩
  · rintro r hr ⟨n, hn, hbad⟩
    refine hval (hnonempty r hr) ?_
    intro hok
    have := ((check_interfaces_ok_iff interfaces).mp hok r hr).2 n hn
    rw [hbad] at this
    cases this
  · intro r hr hbad
    refine hval (hnonempty r hr) ?_
    intro hok
    have := ((check_interfaces_ok_iff interfaces).mp hok r hr).1
    rw [hbad] at this
    cases this

/-- Witness for the amended C6: with no remote engine, the document whose
node misses `nodeid` fails validation. -/
theorem claim_C6_witness :
    ∃ msg, validate_present false [badInterface] "1" = Except.error msg :=
  (claim_C6_amended [badInterface] "1").2.1 badInterface (by decide) (by decide)

/-! ## Claim C3 -/

/-- Claim C3: with BGP enabled, the reconciler issues the full
disable-then-re-enable trace — re-advertising every announced network —
exactly when `router_id` differs, or a specified `bgp_profile` name
differs, or the resolved antispoofing handle sets have a non-empty
symmetric difference, or the announced-network-to-route-map mappings
(keyed by resolved network handle, last write wins) differ; otherwise no
BGP call is made and the branch reports `changed=false`. -/
theorem claim_C3 (bgp : BgpCurrent) (rid : String) (prof : Option String)
    (spoof : List String) (ann : List AnnouncedEntry) :
    (bgp_reconcile bgp rid prof spoof ann =
       (BgpAction.disable :: BgpAction.enable rid spoof ::
          ann.map (fun e => BgpAction.advertise e.network e.route_map), true)
     ↔ (bgp.router_id ≠ rid
        ∨ (∃ p, prof = some p ∧ p ≠ bgp.profile_name)
        ∨ ¬(∀ x, x ∈ bgp.antispoofing_ne_ref ↔ x ∈ spoof)
        ∨ ¬(∀ k, dict_lookup bgp.announced_ne_setting k = dict_lookup ann k)))
    ∧ (¬(bgp.router_id ≠ rid
        ∨ (∃ p, prof = some p ∧ p ≠ bgp.profile_name)
        ∨ ¬(∀ x, x ∈ bgp.antispoofing_ne_ref ↔ x ∈ spoof)
        ∨ ¬(∀ k, dict_lookup bgp.announced_ne_setting k = dict_lookup ann k))
       → bgp_reconcile bgp rid prof spoof ann = ([], false)) := by
  constructor
  · constructor
    · intro h
      rw [← update_bgp_iff]
      cases hu : update_bgp bgp rid prof spoof ann with
      | true => rfl
      | false =>
        rw [bgp_reconcile, hu] at h
        simp at h
    · intro h
      have hu : update_bgp bgp rid prof spoof ann = true :=
        (update_bgp_iff bgp rid prof spoof ann).mpr h
      rw [bgp_reconcile, hu]
      simp
  · intro h
    have hu : update_bgp bgp rid prof spoof ann = false := by
      cases hu : update_bgp bgp rid prof spoof ann with
      | false => rfl
      | true => exact absurd ((update_bgp_iff bgp rid prof spoof ann).mp hu) h
    rw [bgp_reconcile, hu]
    simp

/-- Witness for C3: a changed `router_id` alone triggers the full
disable/enable/advertise sequence with the new router id. -/
theorem claim_C3_witness :
    bgp_reconcile
      { router_id := "1.1.1.1", profile_name := "Default BGP Profile",
        antispoofing_ne_ref := ["hrefa"], announced_ne_setting := [{ network := "hrefn", route_map := none }] }
      "2.2.2.2" none ["hrefa"] [{ network := "hrefn", route_map := none }] =
      ([BgpAction.disable, BgpAction.enable "2.2.2.2" ["hrefa"],
        BgpAction.advertise "hrefn" none], true) :=
  (claim_C3
      { router_id := "1.1.1.1", profile_name := "Default BGP Profile",
        antispoofing_ne_ref := ["hrefa"], announced_ne_setting := [{ network := "hrefn", route_map := none }] }
      "2.2.2.2" none ["hrefa"] [{ network := "hrefn", route_map := none }]).1.mpr
    (Or.inl (by decide))

/-! ## Claim C4 -/

/-- Claim C4 counterexample: desired DNS list empty, current DNS
`["8.8.8.8"]` — the symmetric difference is non-empty, yet `update_general`
issues no call and reports `changed=false`, because the DNS block is
guarded by the truthiness of the desired list.  This refutes the claim for
"every desired DNS address list". -/
theorem claim_C4_counterexample :
    same_set ["8.8.8.8"] ([] : List String) = false
    ∧ update_general
        { default_nat := some false, file_reputation := some false,
          antivirus := some false, domain_server_address := [] }
        { default_nat_status := false, file_reputation_status := false,
          antivirus_status := false, dns := ["8.8.8.8"] } = ([], false) := by
  constructor
  · rfl
  · rfl

/-- Claim C4 (amended): for a NON-EMPTY desired DNS list, a non-empty
symmetric difference with the current set triggers clear-then-add and
`changed=true`, and set equality (in any order) issues no DNS call; an
empty desired list never triggers a DNS mutation, whatever the current
entries. -/
theorem claim_C4_amended (d : DesiredGeneral) (e : EngineGeneral) :
    (d.domain_server_address = [] → dns_actions d.domain_server_address e.dns = [])
    ∧ (same_set e.dns d.domain_server_address = true ↔
        ∀ x, x ∈ e.dns ↔ x ∈ d.domain_server_address)
    ∧ (d.domain_server_address ≠ [] →
        (same_set e.dns d.domain_server_address = false →
          dns_actions d.domain_server_address e.dns =
            [GAction.clear_dns, GAction.add_dns d.domain_server_address]
          ∧ (update_general d e).2 = true)
        ∧ (same_set e.dns d.domain_server_address = true →
          dns_actions d.domain_server_address e.dns = []))
    ∧ (update_general d e).1 =
        toggle_feature d.default_nat e.default_nat_status GAction.enable_default_nat GAction.disable_default_nat
        ++ toggle_feature d.file_reputation e.file_reputation_status GAction.enable_file_reputation GAction.disable_file_reputation
        ++ toggle_feature d.antivirus e.antivirus_status GAction.enable_antivirus GAction.disable_antivirus
        ++ dns_actions d.domain_server_address e.dns := by
  refine ⟨fun h => by simp [dns_actions, h], same_set_iff e.dns d.domain_server_address, fun hne => ⟨fun hdiff => ?_, fun heq => ?_⟩, rfl⟩
  · have hni : d.domain_server_address.isEmpty = false := by
      cases hd : d.domain_server_address with
      | nil => exact absurd hd hne
      | cons a l => rfl
    have hacts : dns_actions d.domain_server_address e.dns =
        [GAction.clear_dns, GAction.add_dns d.domain_server_address] := by
      simp [dns_actions, hni, hdiff]
    refine ⟨hacts, ?_⟩
    simp [update_general, hacts]
  · have hni : d.domain_server_address.isEmpty = false := by
      cases hd : d.domain_server_address with
      | nil => exact absurd hd hne
      | cons a l => rfl
    simp [dns_actions, hni, heq]

/-- Witness for the amended C4: desired `["8.8.8.8"]` against current
`["8.8.4.4"]` triggers clear-then-add with `changed=true`. -/
theorem claim_C4_witness :
    dns_actions ["8.8.8.8"] ["8.8.4.4"] = [GAction.clear_dns, GAction.add_dns ["8.8.8.8"]]
    ∧ (update_general
        { default_nat := none, file_reputation := none, antivirus := none,
          domain_server_address := ["8.8.8.8"] }
        { default_nat_status := false, file_reputation_status := false,
          antivirus_status := false, dns := ["8.8.4.4"] }).2 = true :=
  ((claim_C4_amended
      { default_nat := none, file_reputation := none, antivirus := none,
        domain_server_address := ["8.8.8.8"] }
      { default_nat_status := false, file_reputation_status := false,
        antivirus_status := false, dns := ["8.8.4.4"] }).2.2.1 (by decide)).1 (by decide)

/-! ## Claim C7 -/

/-- Claim C7 counterexample: the desired peering is already attached to the
interface for the exact `(network, peering)` pair, but a second peering
with a different name is also attached, so `update_bgp_peering` attaches
again and reports `changed=true` — refuting "no attachment call is issued
and the entry contributes changed=false". -/
theorem claim_C7_counterexample :
    ({ net_ip := "1.1.1.0/24", peering_name := "bgppeering" } : AttachedPeering) ∈
      [({ net_ip := "1.1.1.0/24", peering_name := "bgppeering" } : AttachedPeering),
       { net_ip := "2.2.2.0/24", peering_name := "otherpeering" }]
    ∧ update_bgp_peering
        [{ net_ip := "1.1.1.0/24", peering_name := "bgppeering" },
         { net_ip := "2.2.2.0/24", peering_name := "otherpeering" }]
        (some "1.1.1.0/24") "bgppeering" = (true, true) := by
  constructor
  · exact List.mem_cons_self _ _
  · rfl

/-- Claim C7 (amended): the attachment is skipped (no call, changed=false)
exactly when the interface's routing node has at least one attached peering
and every attached peering bears the desired peering's name — the bound
network plays no role in the decision; otherwise (no peerings attached at
all, or some attached peering with a different name) the peering is
attached to the interface/network and the entry contributes changed=true. -/
theorem claim_C7_amended (ps : List AttachedPeering) (network : Option String) (name : String) :
    (update_bgp_peering ps network name = (false, false) ↔
      ps ≠ [] ∧ ∀ e ∈ ps, e.peering_name = name)
    ∧ (update_bgp_peering ps network name = (true, true) ↔
      (ps = [] ∨ ∃ e ∈ ps, e.peering_name ≠ name)) := by
  have hch : ∀ b : Bool, update_bgp_peering ps network name = (b, b) ↔
      peering_needs_update ps network name = b := by
    intro b
    unfold update_bgp_peering
    constructor
    · intro h
      have := congrArg Prod.fst h
      simpa using this
    · intro h
      rw [h]
  constructor
  · rw [hch false, peering_needs_update_false_iff]
  · rw [hch true]
    constructor
    · intro h
      by_contra hc
      push_neg at hc
      have : peering_needs_update ps network name = false :=
        (peering_needs_update_false_iff ps network name).mpr
          ⟨hc.1, fun e hme => hc.2 e hme⟩
      rw [h] at this
      cases this
    · intro h
      cases hu : peering_needs_update ps network name with
      | true => rfl
      | false =>
        have := (peering_needs_update_false_iff ps network name).mp hu
        rcases h with h | ⟨e, hme, hne⟩
        · exact absurd h this.1
        · exact absurd (this.2 e hme) hne

/-- Witness for the amended C7: with no attached peerings the peering is
attached and the entry reports changed=true. -/
theorem claim_C7_witness :
    update_bgp_peering [] (some "1.1.1.0/24") "bgppeering" = (true, true) :=
  (claim_C7_amended [] (some "1.1.1.0/24") "bgppeering").2.mpr (Or.inl rfl)

/-! ## Claim C8 -/

/-- Claim C8 counterexample: a document that leaves `default_nat`
unspecified gets the declared ansible default `False`, so with the feature
currently enabled the reconciler issues a disable call and reports
`changed=true` — refuting "no call is issued when the desired value is
unspecified". -/
theorem claim_C8_counterexample :
    bool_param_default_false none = some false
    ∧ update_general
        { default_nat := bool_param_default_false none,
          file_reputation := bool_param_default_false none,
          antivirus := bool_param_default_false none,
          domain_server_address := [] }
        { default_nat_status := true, file_reputation_status := false,
          antivirus_status := false, dns := [] } =
      ([GAction.disable_default_nat], true) := by
  constructor
  · rfl
  · rfl

/-- Claim C8 (amended): each feature is an independent toggle on the
EFFECTIVE desired value — an unspecified parameter defaults to `false`
(so it disables an enabled feature), an explicitly null parameter is a
no-op, and otherwise the feature is enabled exactly when desired=true and
current=false and disabled exactly when desired=false and current=true. -/
theorem claim_C8_amended (raw : Option (Option Bool)) (status : Bool) (en dis : GAction)
    (hne : en ≠ dis) :
    (raw = none → bool_param_default_false raw = some false)
    ∧ (toggle_feature (bool_param_default_false raw) status en dis = [en] ↔
        bool_param_default_false raw = some true ∧ status = false)
    ∧ (toggle_feature (bool_param_default_false raw) status en dis = [dis] ↔
        bool_param_default_false raw = some false ∧ status = true)
    ∧ (raw = some none → toggle_feature (bool_param_default_false raw) status en dis = []) := by
  have hne' : dis ≠ en := Ne.symm hne
  refine ⟨fun h => by subst h; rfl, ?_, ?_, fun h => by subst h; rfl⟩ <;>
    rcases raw with _ | (_ | b) <;> (try cases b) <;> cases status <;>
      simp [bool_param_default_false, toggle_feature, hne, hne']

/-- Witness for the amended C8: unspecified `default_nat` with the feature
currently enabled yields exactly the disable call. -/
theorem claim_C8_witness :
    toggle_feature (bool_param_default_false none) true GAction.enable_default_nat GAction.disable_default_nat
      = [GAction.disable_default_nat] :=
  (claim_C8_amended none true GAction.enable_default_nat GAction.disable_default_nat
    (by decide)).2.2.1.mpr ⟨rfl, rfl⟩

/-! ## Claim C9 -/

/-- Claim C9: serializing a spec that carries no `vlan_id` deletes the
`vlan_id` attribute from the object itself (the returned map aliases the
object's attribute dict), so a later read of `vlan_id` — in particular a
second serialization, which consults `is_vlan` — raises `AttributeError`
instead of returning the same map. -/
theorem claim_C9 (y : YamlInterface) (h : y.vlan_id = Attr.present none) :
    y.as_dict = Except.ok { y with vlan_id := Attr.deleted }
    ∧ ({ y with vlan_id := Attr.deleted } : YamlInterface).is_vlan =
        Except.error "AttributeError: vlan_id"
    ∧ ({ y with vlan_id := Attr.deleted } : YamlInterface).as_dict =
        Except.error "AttributeError: vlan_id" := by
  have hv : y.is_vlan = Except.ok false := by
    unfold YamlInterface.is_vlan
    rw [h]
    rfl
  refine ⟨?_, rfl, rfl⟩
  unfold YamlInterface.as_dict
  rw [hv]

/-- A concrete non-VLAN interface spec for the C9 witness. -/
def yamlC9 : YamlInterface :=
  mkYamlInterface
    { interface_id := some (PyVal.pstr "1"), vlan_id := none, cluster_virtual := none,
      network_value := none, macaddress := none, zone_ref := none, nodes := [] }

/-- Witness for C9 at a concrete spec parsed without a `vlan_id` key. -/
theorem claim_C9_witness :
    yamlC9.as_dict = Except.ok { yamlC9 with vlan_id := Attr.deleted }
    ∧ ({ yamlC9 with vlan_id := Attr.deleted } : YamlInterface).is_vlan =
        Except.error "AttributeError: vlan_id"
    ∧ ({ yamlC9 with vlan_id := Attr.deleted } : YamlInterface).as_dict =
        Except.error "AttributeError: vlan_id" :=
  claim_C9 yamlC9 rfl

/-! ## Claim C10 -/

/-- Claim C10: construction coerces every scalar field of the parsed spec
with `str(...)`, so stored identifiers are decimal strings; the group
lookup coerces its key the same way, hence an integer `interface_id` in the
input document is found by the same identifier given as a string, and a
VLAN entry declared with an integer `vlan_id` is found by its decimal
string. -/
theorem claim_C10 (r : RawInterface) (raw : List RawInterface) (m : Nat) :
    ((mkYamlInterface r).interface_id = r.interface_id.map pyStr
     ∧ (mkYamlInterface r).vlan_id = Attr.present (r.vlan_id.map pyStr)
     ∧ (mkYamlInterface r).cluster_virtual = r.cluster_virtual.map pyStr
     ∧ (mkYamlInterface r).network_value = r.network_value.map pyStr
     ∧ (mkYamlInterface r).macaddress = r.macaddress.map pyStr
     ∧ (mkYamlInterface r).zone_ref = r.zone_ref.map pyStr)
    ∧ pyStr (PyVal.pint m) = toString m
    ∧ Interfaces.get raw (PyVal.pint m) = Interfaces.get raw (PyVal.pstr (toString m))
    ∧ (r.interface_id = some (PyVal.pint m) →
        Interfaces.get (r :: raw) (PyVal.pint m) = some (mkYamlInterface r))
    ∧ (r.vlan_id = some (PyVal.pint m) →
        Interfaces.get_vlan (r :: raw) (toString m) = some (mkYamlInterface r)) := by
  refine ⟨⟨rfl, rfl, rfl, rfl, rfl, rfl⟩, rfl, rfl, ?_, ?_⟩
  · intro h
    unfold Interfaces.get
    rw [List.map_cons]
    rw [List.find?_cons_of_pos]
    show ((mkYamlInterface r).interface_id == some (pyStr (PyVal.pint m))) = true
    have : (mkYamlInterface r).interface_id = some (pyStr (PyVal.pint m)) := by
      show r.interface_id.map pyStr = some (pyStr (PyVal.pint m))
      rw [h]
      rfl
    rw [this]
    exact beq_self_eq_true _
  · intro h
    unfold Interfaces.get_vlan
    rw [List.map_cons]
    rw [List.find?_cons_of_pos]
    show ((mkYamlInterface r).vlan_id == Attr.present (some (toString m))) = true
    have : (mkYamlInterface r).vlan_id = Attr.present (some (toString m)) := by
      show Attr.present (r.vlan_id.map pyStr) = Attr.present (some (toString m))
      rw [h]
      rfl
    rw [this]
    exact beq_self_eq_true _

/-- The raw dict for the C10 witness: `interface_id` and `vlan_id` given as
integers. -/
def rawC10 : RawInterface :=
  { interface_id := some (PyVal.pint 2), vlan_id := some (PyVal.pint 2),
    cluster_virtual := none, network_value := none, macaddress := none,
    zone_ref := none, nodes := [] }

/-- Witness for C10: an interface declared with integer `interface_id=2`
and `vlan_id=2` is found both by the integer key and by the string key. -/
theorem claim_C10_witness :
    Interfaces.get [rawC10] (PyVal.pint 2) = some (mkYamlInterface rawC10)
    ∧ Interfaces.get_vlan [rawC10] (toString 2) = some (mkYamlInterface rawC10) :=
  ⟨(claim_C10 rawC10 [] 2).2.2.2.1 rfl, (claim_C10 rawC10 [] 2).2.2.2.2 rfl⟩

end L3FWCluster
